import Mathlib

/-
Shallow embedding of the Breakup Recovery Squad Streamlit application
(src/app.py). External effects — agent construction (the Gemini client and
the four Agent objects), LLM invocations, and filesystem writes during image
staging — are modelled as oracles passed to the embedded handlers, and each
handler returns a record of the observable events it produced (invocations
made, panels rendered, files written, messages shown).
-/

namespace BreakupRecovery

/-- Speaker role of one chat turn, as stored in
st.session_state.chat_history (app.py lines 185, 194, 197): the code uses
the tags "user" and "therapist". -/
inductive Role
  | user
  | therapist
  deriving DecidableEq, Repr

/-- The fixed fallback reply appended to the transcript when the chat
invocation raises (app.py line 196). -/
def fallbackMessage : String := "Something went wrong. Please try again."

/-- One line of the serialized chat prompt (app.py line 190): a user turn
becomes "User: <text>", any other turn becomes "Therapist: <text>". -/
def chatLine (m : Role × String) : String :=
  match m.1 with
  | Role.user => "User: " ++ m.2
  | Role.therapist => "Therapist: " ++ m.2

/-- Serialization of the full transcript to a single prompt string
(app.py lines 189-191): newline-joined chatLine of every turn. -/
def chatPrompt (history : List (Role × String)) : String :=
  String.intercalate "\n" (history.map chatLine)

/-- Python str.strip as called on the response content (app.py line 193):
removes leading and trailing whitespace characters. -/
def pyStrip (s : String) : String :=
  String.mk
    (((s.data.dropWhile Char.isWhitespace).reverse.dropWhile
        Char.isWhitespace).reverse)

/-- Result of one run of the chat handler: the new transcript and the
prompt string sent to the therapist persona. -/
structure ChatStep where
  transcript : List (Role × String)
  promptSent : String
  deriving DecidableEq, Repr

/-- The chat handler (app.py lines 184-198). It appends (user, input) to
the transcript, serializes the whole transcript with chatPrompt, invokes
the therapist persona on it (modelled by the oracle run, with
Except.error standing for a raised exception), and appends the stripped
reply on success (line 193 calls str.strip, modelled by pyStrip) or
fallbackMessage on failure. -/
def chatHandler (run : String → Except Unit String)
    (history : List (Role × String)) (input : String) : ChatStep :=
  let h1 := history ++ [(Role.user, input)]
  let prompt := chatPrompt h1
  match run prompt with
  | Except.ok content => ⟨h1 ++ [(Role.therapist, pyStrip content)], prompt⟩
  | Except.error _ => ⟨h1 ++ [(Role.therapist, fallbackMessage)], prompt⟩

/-- Checks that a transcript is a sequence of (user, therapist) turn
pairs: it alternates user/therapist starting with user and has even
length. -/
def alternatesUT : List (Role × String) → Bool
  | [] => true
  | (Role.user, _) :: (Role.therapist, _) :: rest => alternatesUT rest
  | _ => false

/-- An uploaded image as handed to process_images: Streamlit exposes its
original filename (file.name) and its raw bytes (file.getbuffer, modelled
as an opaque string). -/
structure UploadedFile where
  name : String
  data : String
  deriving DecidableEq, Repr

/-- The attachment wrapper produced for a staged image (app.py line 123):
AgnoImage(filepath=Path(tmp_path)) reduced to its filepath. -/
structure AgnoImage where
  filepath : String
  deriving DecidableEq, Repr

/-- The staging path of an uploaded file (app.py line 120):
os.path.join(tempfile.gettempdir(), file.name). -/
def tmpPath (tempdir : String) (file : UploadedFile) : String :=
  tempdir ++ "/" ++ file.name

/-- Oracle outcome for staging one image inside the try of
process_images (app.py lines 119-123): the body can succeed, raise before
the file write completes (path construction or open/write failing), or
raise after the write (the AgnoImage wrapper failing). -/
inductive StageOutcome
  | ok
  | failBeforeWrite
  | failAfterWrite
  deriving DecidableEq, Repr

/-- Image staging (app.py lines 116-126). For each file in order it
writes the buffer to tmpPath and appends an AgnoImage for that path; a
raise inside the per-file try is logged and the loop continues with the
next file. Returns the attachment list together with the list of
filesystem writes (path, data) performed. -/
def process_images (tempdir : String) (stage : UploadedFile → StageOutcome) :
    List UploadedFile → List AgnoImage × List (String × String)
  | [] => ([], [])
  | file :: rest =>
      let res := process_images tempdir stage rest
      match stage file with
      | StageOutcome.ok =>
          (⟨tmpPath tempdir file⟩ :: res.1,
           (tmpPath tempdir file, file.data) :: res.2)
      | StageOutcome.failBeforeWrite => res
      | StageOutcome.failAfterWrite =>
          (res.1, (tmpPath tempdir file, file.data) :: res.2)

/-- Identifier of one of the four personas, in the roles they play in the
recovery-plan sequence (app.py line 135 unpacking). -/
inductive PersonaId
  | therapist
  | closure
  | planner
  | honest
  deriving DecidableEq, Repr

/-- The fixed invocation order of the recovery-plan sequence
(app.py lines 145-167). -/
def personaOrder : List PersonaId :=
  [PersonaId.therapist, PersonaId.closure, PersonaId.planner,
   PersonaId.honest]

/-- The message string passed to each persona run (app.py lines 147, 153,
159, 165): a fixed prefix followed by a newline and the user input. -/
def planMessage (u : String) : PersonaId → String
  | PersonaId.therapist => "Analyze and comfort:\n" ++ u
  | PersonaId.closure => "Help write unsent messages:\n" ++ u
  | PersonaId.planner => "Design a 7-day challenge:\n" ++ u
  | PersonaId.honest => "Give me the truth:\n" ++ u

/-- One recorded persona invocation: which persona was run, with which
message and which attachment list (the message= and images= arguments of
the .run calls). -/
structure Invocation where
  persona : PersonaId
  message : String
  images : List AgnoImage
  deriving DecidableEq, Repr

/-- Static configuration of one agent (app.py lines 25-77): its name, its
instruction script, and whether it carries the DuckDuckGo search tool. -/
structure Agent where
  name : String
  instructions : List String
  hasSearchTool : Bool
  deriving DecidableEq, Repr

/-- The Therapist Agent configuration (app.py lines 25-37). -/
def therapist_agent : Agent :=
  ⟨"Therapist Agent",
   ["You are an empathetic therapist that:",
    "1. Listens with empathy and validates feelings",
    "2. Uses gentle humor to lighten the mood",
    "3. Shares relatable breakup experiences",
    "4. Offers comforting words and encouragement",
    "5. Analyzes both text and image inputs for emotional context"],
   false⟩

/-- The Closure Agent configuration (app.py lines 39-50). -/
def closure_agent : Agent :=
  ⟨"Closure Agent",
   ["You are a closure specialist that:",
    "1. Creates emotional messages for unsent feelings",
    "2. Helps express raw, honest emotions",
    "3. Formats messages clearly with headers",
    "4. Ensures tone is heartfelt and authentic"],
   false⟩

/-- The Routine Planner Agent configuration (app.py lines 52-63). -/
def routine_planner_agent : Agent :=
  ⟨"Routine Planner Agent",
   ["You are a recovery routine planner that:",
    "1. Designs 7-day recovery challenges",
    "2. Includes fun activities and self-care tasks",
    "3. Suggests social media detox strategies",
    "4. Creates empowering playlists"],
   false⟩

/-- The Brutal Honesty Agent configuration (app.py lines 65-77). -/
def brutal_honesty_agent : Agent :=
  ⟨"Brutal Honesty Agent",
   ["You are a direct feedback specialist that:",
    "1. Gives raw, objective feedback about breakups",
    "2. Explains relationship failures clearly",
    "3. Uses blunt, factual language",
    "4. Provides reasons to move forward"],
   false⟩

/-- Agent construction (the initialize_agents function, app.py lines
21-83). The Gemini client and Agent constructors may raise, modelled by
the oracle construct applied to the credential; on success the four
configured agents are returned (the honesty agent with its search tool
set), on a raise the uniform failure signal (None, None, None, None) is
returned after showing an error. -/
def init_agents (construct : String → Except Unit Unit) (api_key : String) :
    Option Agent × Option Agent × Option Agent × Option Agent :=
  match construct api_key with
  | Except.ok _ =>
      (some therapist_agent, some closure_agent, some routine_planner_agent,
       some { brutal_honesty_agent with hasSearchTool := true })
  | Except.error _ => (none, none, none, none)

/-- The four sequential persona runs of the recovery-plan handler
(app.py lines 145-167), with the oracle run standing for Agent.run. Each
persona in the list is run in order on planMessage and the shared
attachment list; on success its panel (persona, content) is rendered and
the sequence continues; a raise is not caught, so the sequence stops
there with no panel for the failing run. Returns the invocations made,
the panels rendered, and whether an exception propagated. -/
def runSequence (run : PersonaId → String → List AgnoImage → Except Unit String)
    (u : String) (imgs : List AgnoImage) :
    List PersonaId → List Invocation × List (PersonaId × String) × Bool
  | [] => ([], [], false)
  | p :: rest =>
      match run p (planMessage u p) imgs with
      | Except.ok content =>
          let res := runSequence run u imgs rest
          (⟨p, planMessage u p, imgs⟩ :: res.1,
           (p, content) :: res.2.1, res.2.2)
      | Except.error _ => ([⟨p, planMessage u p, imgs⟩], [], true)

/-- Observable outcome of one run of the Get Recovery Plan handler:
whether the empty-input warning fired, whether the initialization error
was shown, the persona invocations made, the result panels rendered, the
filesystem writes performed by staging, whether an uncaught exception
propagated, and whether the final success banner was reached. -/
structure PlanOutcome where
  warned : Bool
  errorShown : Bool
  invocations : List Invocation
  panels : List (PersonaId × String)
  fsWrites : List (String × String)
  raised : Bool
  completed : Bool
  deriving DecidableEq, Repr

/-- The Get Recovery Plan button handler (app.py lines 129-169). If both
the user text and the upload list are empty it warns and stops; otherwise
it constructs the agents, and if any handle is None it shows an error and
stops; otherwise it stages the images and runs the four personas in
personaOrder on the user input and the staged attachments. -/
def getRecoveryPlan (construct : String → Except Unit Unit)
    (stage : UploadedFile → StageOutcome)
    (run : PersonaId → String → List AgnoImage → Except Unit String)
    (tempdir api_key user_input : String)
    (uploaded_files : List UploadedFile) : PlanOutcome :=
  if user_input = "" ∧ uploaded_files = [] then
    ⟨true, false, [], [], [], false, false⟩
  else
    match init_agents construct api_key with
    | (some _, some _, some _, some _) =>
        let staged := process_images tempdir stage uploaded_files
        let res := runSequence run user_input staged.1 personaOrder
        ⟨false, false, res.1, res.2.1, staged.2, res.2.2, !res.2.2⟩
    | _ => ⟨false, true, [], [], [], false, false⟩

/-- Helper: the success branch of the chat handler. -/
theorem chatHandler_ok (run : String → Except Unit String)
    (history : List (Role × String)) (input content : String)
    (hE : run (chatPrompt (history ++ [(Role.user, input)])) =
      Except.ok content) :
    chatHandler run history input =
      ⟨history ++ [(Role.user, input), (Role.therapist, pyStrip content)],
       chatPrompt (history ++ [(Role.user, input)])⟩ := by
  simp [chatHandler, hE]

/-- Helper: the failure branch of the chat handler. -/
theorem chatHandler_error (run : String → Except Unit String)
    (history : List (Role × String)) (input : String)
    (hE : run (chatPrompt (history ++ [(Role.user, input)])) =
      Except.error ()) :
    chatHandler run history input =
      ⟨history ++ [(Role.user, input), (Role.therapist, fallbackMessage)],
       chatPrompt (history ++ [(Role.user, input)])⟩ := by
  simp [chatHandler, hE]

/-- Helper: in both branches the chat handler appends exactly a user turn
and one therapist turn, and the prompt sent is the serialization of the
transcript extended with the user turn. -/
theorem chatHandler_shape (run : String → Except Unit String)
    (history : List (Role × String)) (input : String) :
    ∃ r : String, chatHandler run history input =
      ⟨history ++ [(Role.user, input), (Role.therapist, r)],
       chatPrompt (history ++ [(Role.user, input)])⟩ := by
  cases hE : run (chatPrompt (history ++ [(Role.user, input)])) with
  | ok content => exact ⟨pyStrip content, chatHandler_ok run history input content hE⟩
  | error e => exact ⟨fallbackMessage, chatHandler_error run history input hE⟩

/-- Helper: a transcript accepted by alternatesUT has even length. -/
theorem alternatesUT_length_even :
    ∀ l : List (Role × String), alternatesUT l = true → l.length % 2 = 0
  | [], _ => rfl
  | (Role.user, _) :: (Role.therapist, _) :: rest, h => by
      have ih := alternatesUT_length_even rest (by simpa [alternatesUT] using h)
      simp only [List.length_cons]
      omega

/-- Helper: appending one (user, therapist) pair of turns preserves
alternatesUT. -/
theorem alternatesUT_append_pair :
    ∀ l : List (Role × String), alternatesUT l = true → ∀ a b : String,
      alternatesUT (l ++ [(Role.user, a), (Role.therapist, b)]) = true
  | [], _, a, b => by simp [alternatesUT]
  | (Role.user, _) :: (Role.therapist, _) :: rest, h, a, b => by
      have ih :=
        alternatesUT_append_pair rest (by simpa [alternatesUT] using h) a b
      simpa [alternatesUT] using ih

/- ------------------------------------------------------------------
Claims about the chat loop (app.py lines 184-198).
------------------------------------------------------------------ -/

/-- C1: on each new user chat message, the handler appends (user, text)
to the transcript, sends the newline-joined "User: ..." / "Therapist: ..."
serialization of the full transcript as the prompt, and on a successful
invocation appends the persona reply (the stripped response content). -/
theorem chat_success_appends_reply
    (run : String → Except Unit String) (history : List (Role × String))
    (input content : String)
    (h : run (chatPrompt (history ++ [(Role.user, input)])) =
      Except.ok content) :
    (chatHandler run history input).promptSent =
        String.intercalate "\n"
          ((history ++ [(Role.user, input)]).map chatLine) ∧
      (chatHandler run history input).transcript =
        history ++ [(Role.user, input), (Role.therapist, pyStrip content)] := by
  rw [chatHandler_ok run history input content h]
  exact ⟨rfl, rfl⟩

/-- Witness for C1 at a concrete input: submitting "Hello" on an empty
transcript with a persona answering " hi there " yields the two expected
turns, the reply stripped. -/
theorem chat_success_appends_reply_witness :
    (chatHandler (fun _ => Except.ok " hi there ") [] "Hello").transcript =
      [(Role.user, "Hello"), (Role.therapist, "hi there")] := by
  have h := chat_success_appends_reply (fun _ => Except.ok " hi there ") []
    "Hello" " hi there " rfl
  rw [h.2]
  decide

/-- C4: if the chat invocation raises, the persona turn appended equals
the fixed fallback string and the preceding user turn remains in the
transcript. -/
theorem chat_failure_appends_fallback
    (run : String → Except Unit String) (history : List (Role × String))
    (input : String)
    (h : run (chatPrompt (history ++ [(Role.user, input)])) =
      Except.error ()) :
    (chatHandler run history input).transcript =
        history ++ [(Role.user, input), (Role.therapist, fallbackMessage)] ∧
      (Role.user, input) ∈ (chatHandler run history input).transcript := by
  rw [chatHandler_error run history input h]
  exact ⟨rfl, by simp⟩

/-- Witness for C4 at a concrete input: a raising invocation on the
message "Hello" leaves the user turn followed by the fallback turn. -/
theorem chat_failure_appends_fallback_witness :
    (chatHandler (fun _ => Except.error ()) [] "Hello").transcript =
      [(Role.user, "Hello"),
       (Role.therapist, "Something went wrong. Please try again.")] := by
  have h := chat_failure_appends_fallback (fun _ => Except.error ()) []
    "Hello" rfl
  rw [h.1]
  decide

/-- C5: the chat transcript is strictly append-only (every handler run
extends the previous transcript with a suffix), and submitting "Hello"
then "I feel better" from an empty transcript yields the four turns in
order. -/
theorem chat_transcript_append_only :
    (∀ (run : String → Except Unit String) (history : List (Role × String))
        (input : String), ∃ t : List (Role × String),
          (chatHandler run history input).transcript = history ++ t) ∧
      (chatHandler (fun _ => Except.ok "reply2")
          ((chatHandler (fun _ => Except.ok "reply1") [] "Hello").transcript)
          "I feel better").transcript =
        [(Role.user, "Hello"), (Role.therapist, "reply1"),
         (Role.user, "I feel better"), (Role.therapist, "reply2")] := by
  constructor
  · intro run history input
    obtain ⟨r, hr⟩ := chatHandler_shape run history input
    exact ⟨[(Role.user, input), (Role.therapist, r)], by rw [hr]⟩
  · decide

/-- C10: every handled chat submission appends exactly two turns, a user
turn then one therapist turn, in both branches; hence a transcript that
alternated (user, therapist) pairs before the run still alternates after
it, and its length is even and grew by exactly two. -/
theorem chat_appends_exactly_two_turns
    (run : String → Except Unit String) (history : List (Role × String))
    (input : String) (halt : alternatesUT history = true) :
    ∃ r : String,
      (chatHandler run history input).transcript =
          history ++ [(Role.user, input), (Role.therapist, r)] ∧
        alternatesUT (chatHandler run history input).transcript = true ∧
        (chatHandler run history input).transcript.length =
          history.length + 2 ∧
        (chatHandler run history input).transcript.length % 2 = 0 := by
  obtain ⟨r, hr0⟩ := chatHandler_shape run history input
  have hr : (chatHandler run history input).transcript =
      history ++ [(Role.user, input), (Role.therapist, r)] := by rw [hr0]
  refine ⟨r, hr, ?_, ?_, ?_⟩
  · rw [hr]; exact alternatesUT_append_pair history halt input r
  · rw [hr]; simp
  · exact alternatesUT_length_even _ (by
      rw [hr]; exact alternatesUT_append_pair history halt input r)

/-- Witness for C10 at a concrete input: one submission on the empty
transcript produces an alternating transcript of length two. -/
theorem chat_appends_exactly_two_turns_witness :
    alternatesUT
        ((chatHandler (fun _ => Except.ok "ok then") [] "hey").transcript) =
      true := by
  obtain ⟨r, _, h2, _, _⟩ := chat_appends_exactly_two_turns
    (fun _ => Except.ok "ok then") [] "hey" rfl
  exact h2

/- ------------------------------------------------------------------
Helper lemmas for image staging and the recovery-plan sequence.
------------------------------------------------------------------ -/

/-- Helper: the attachments produced by process_images are exactly the
files whose staging succeeded, in input order, wrapped at their tmpPath. -/
theorem process_images_fst (tempdir : String)
    (stage : UploadedFile → StageOutcome) :
    ∀ files : List UploadedFile,
      (process_images tempdir stage files).1 =
        (files.filter (fun f => stage f == StageOutcome.ok)).map
          (fun f => ⟨tmpPath tempdir f⟩)
  | [] => rfl
  | file :: rest => by
      have ih := process_images_fst tempdir stage rest
      cases h : stage file <;>
        simp [process_images, h, List.filter_cons, ih]

/-- Helper: the filesystem writes performed by process_images are exactly
the files whose staging reached the write, in input order, at their
tmpPath with their data. -/
theorem process_images_snd (tempdir : String)
    (stage : UploadedFile → StageOutcome) :
    ∀ files : List UploadedFile,
      (process_images tempdir stage files).2 =
        (files.filter
            (fun f => !(stage f == StageOutcome.failBeforeWrite))).map
          (fun f => (tmpPath tempdir f, f.data))
  | [] => rfl
  | file :: rest => by
      have ih := process_images_snd tempdir stage rest
      cases h : stage file <;>
        simp [process_images, h, List.filter_cons, ih]

/-- Helper: every invocation recorded by runSequence carries the shared
attachment list. -/
theorem runSequence_images
    (run : PersonaId → String → List AgnoImage → Except Unit String)
    (u : String) (imgs : List AgnoImage) :
    ∀ ps : List PersonaId,
      ∀ inv ∈ (runSequence run u imgs ps).1, inv.images = imgs
  | [] => by simp [runSequence]
  | p :: rest => by
      intro inv hinv
      cases h : run p (planMessage u p) imgs with
      | ok content =>
          simp only [runSequence, h, List.mem_cons] at hinv
          rcases hinv with h1 | h2
          · rw [h1]
          · exact runSequence_images run u imgs rest inv h2
      | error e =>
          simp only [runSequence, h, List.mem_cons, List.not_mem_nil,
            or_false] at hinv
          rw [hinv]

/-- Helper: when every persona run in the list succeeds, runSequence
invokes each persona once in list order on planMessage and the shared
attachments, and no exception propagates. -/
theorem runSequence_ok_of_forall
    (run : PersonaId → String → List AgnoImage → Except Unit String)
    (u : String) (imgs : List AgnoImage) :
    ∀ ps : List PersonaId,
      (∀ p ∈ ps, ∃ s, run p (planMessage u p) imgs = Except.ok s) →
      (runSequence run u imgs ps).1 =
          ps.map (fun p => ⟨p, planMessage u p, imgs⟩) ∧
        (runSequence run u imgs ps).2.2 = false
  | [], _ => ⟨rfl, rfl⟩
  | p :: rest, hall => by
      obtain ⟨s, hs⟩ := hall p (by simp)
      have ih := runSequence_ok_of_forall run u imgs rest
        (fun q hq => hall q (by simp [hq]))
      simp [runSequence, hs, ih.1, ih.2]

/-- Helper: when the runs of a prefix succeed with contents g and the next
persona run raises, runSequence invokes exactly the prefix and the failing
persona, renders panels only for the prefix, and propagates. -/
theorem runSequence_fail_split
    (run : PersonaId → String → List AgnoImage → Except Unit String)
    (u : String) (imgs : List AgnoImage) (g : PersonaId → String) :
    ∀ (ps₁ : List PersonaId) (p : PersonaId) (ps₂ : List PersonaId),
      (∀ q ∈ ps₁, run q (planMessage u q) imgs = Except.ok (g q)) →
      run p (planMessage u p) imgs = Except.error () →
      runSequence run u imgs (ps₁ ++ p :: ps₂) =
        ((ps₁ ++ [p]).map (fun q => ⟨q, planMessage u q, imgs⟩),
         ps₁.map (fun q => (q, g q)), true)
  | [], p, ps₂, _, hfail => by simp [runSequence, hfail]
  | q :: rest, p, ps₂, hok, hfail => by
      have hq := hok q (by simp)
      have ih := runSequence_fail_split run u imgs g rest p ps₂
        (fun x hx => hok x (by simp [hx])) hfail
      simp [runSequence, hq, ih]

/-- Helper: the handler branch in which both the user text and the upload
list are empty (app.py lines 130-132). -/
theorem getRecoveryPlan_empty (construct : String → Except Unit Unit)
    (stage : UploadedFile → StageOutcome)
    (run : PersonaId → String → List AgnoImage → Except Unit String)
    (tempdir api_key : String) :
    getRecoveryPlan construct stage run tempdir api_key "" [] =
      ⟨true, false, [], [], [], false, false⟩ := by
  simp [getRecoveryPlan]

/-- Helper: the handler branch in which agent construction raises
(app.py lines 137-139). -/
theorem getRecoveryPlan_initFail (construct : String → Except Unit Unit)
    (stage : UploadedFile → StageOutcome)
    (run : PersonaId → String → List AgnoImage → Except Unit String)
    (tempdir api_key user_input : String) (files : List UploadedFile)
    (hne : ¬(user_input = "" ∧ files = []))
    (hc : construct api_key = Except.error ()) :
    getRecoveryPlan construct stage run tempdir api_key user_input files =
      ⟨false, true, [], [], [], false, false⟩ := by
  simp [getRecoveryPlan, hne, init_agents, hc]

/-- Helper: the handler branch in which the guard passes and agent
construction succeeds (app.py lines 141-169). -/
theorem getRecoveryPlan_proceed (construct : String → Except Unit Unit)
    (stage : UploadedFile → StageOutcome)
    (run : PersonaId → String → List AgnoImage → Except Unit String)
    (tempdir api_key user_input : String) (files : List UploadedFile)
    (hne : ¬(user_input = "" ∧ files = []))
    (hc : construct api_key = Except.ok ()) :
    getRecoveryPlan construct stage run tempdir api_key user_input files =
      ⟨false, false,
       (runSequence run user_input (process_images tempdir stage files).1
          personaOrder).1,
       (runSequence run user_input (process_images tempdir stage files).1
          personaOrder).2.1,
       (process_images tempdir stage files).2,
       (runSequence run user_input (process_images tempdir stage files).1
          personaOrder).2.2,
       !(runSequence run user_input (process_images tempdir stage files).1
          personaOrder).2.2⟩ := by
  simp [getRecoveryPlan, hne, init_agents, hc]

/- ------------------------------------------------------------------
Claims about the Get Recovery Plan handler and image staging.
------------------------------------------------------------------ -/

/-- C2 counterexample: a concrete submission with non-empty user text and
successfully constructed agents in which the first persona run raises. The
invocation list then contains only the therapist, so the other personas
are not invoked exactly once and the invocation list differs from
personaOrder. -/
theorem plan_four_personas_cex :
    (getRecoveryPlan (fun _ => Except.ok ()) (fun _ => StageOutcome.ok)
          (fun _ _ _ => Except.error ()) "/tmp" "key" "I am sad"
          []).invocations.map Invocation.persona =
        [PersonaId.therapist] ∧
      [PersonaId.therapist] ≠ personaOrder := by
  decide

/-- C2 (amended): for every Get Recovery Plan submission with non-empty
user text, successfully constructed agents, and every persona invocation
returning without raising, each of the four personas is invoked exactly
once, in the fixed order therapist, closure, planner, honesty, and every
invocation receives the same user text (via planMessage) and the same
attachment list. -/
theorem plan_invokes_four_in_order
    (construct : String → Except Unit Unit)
    (stage : UploadedFile → StageOutcome)
    (run : PersonaId → String → List AgnoImage → Except Unit String)
    (tempdir api_key user_input : String) (files : List UploadedFile)
    (hu : user_input ≠ "")
    (hc : construct api_key = Except.ok ())
    (hr : ∀ p, ∃ s, run p (planMessage user_input p)
        (process_images tempdir stage files).1 = Except.ok s) :
    (getRecoveryPlan construct stage run tempdir api_key user_input
        files).invocations =
      personaOrder.map (fun p =>
        ⟨p, planMessage user_input p,
         (process_images tempdir stage files).1⟩) := by
  rw [getRecoveryPlan_proceed construct stage run tempdir api_key user_input
    files (fun hand => hu hand.1) hc]
  exact (runSequence_ok_of_forall run user_input
    (process_images tempdir stage files).1 personaOrder
    (fun p _ => hr p)).1

/-- Witness for C2 (amended) at a concrete input: all four personas are
invoked in order with the shared empty attachment list. -/
theorem plan_invokes_four_in_order_witness :
    (getRecoveryPlan (fun _ => Except.ok ()) (fun _ => StageOutcome.ok)
        (fun _ _ _ => Except.ok "text") "/tmp" "key" "down bad"
        []).invocations =
      personaOrder.map (fun p => ⟨p, planMessage "down bad" p, []⟩) := by
  exact plan_invokes_four_in_order (fun _ => Except.ok ())
    (fun _ => StageOutcome.ok) (fun _ _ _ => Except.ok "text") "/tmp" "key"
    "down bad" [] (by decide) rfl (fun p => ⟨"text", rfl⟩)

/-- C3: whenever agent construction raises, init_agents returns the
all-None failure signal, the handler shows an error, and no persona
invocation takes place. -/
theorem init_failure_blocks_invocation
    (construct : String → Except Unit Unit)
    (stage : UploadedFile → StageOutcome)
    (run : PersonaId → String → List AgnoImage → Except Unit String)
    (tempdir api_key user_input : String) (files : List UploadedFile)
    (hne : ¬(user_input = "" ∧ files = []))
    (hc : construct api_key = Except.error ()) :
    init_agents construct api_key = (none, none, none, none) ∧
      (getRecoveryPlan construct stage run tempdir api_key user_input
          files).errorShown = true ∧
      (getRecoveryPlan construct stage run tempdir api_key user_input
          files).invocations = [] := by
  rw [getRecoveryPlan_initFail construct stage run tempdir api_key
    user_input files hne hc]
  exact ⟨by simp [init_agents, hc], rfl, rfl⟩

/-- Witness for C3 at a concrete input: a raising constructor yields the
error with zero invocations. -/
theorem init_failure_blocks_invocation_witness :
    (getRecoveryPlan (fun _ => Except.error ())
        (fun _ => StageOutcome.ok) (fun _ _ _ => Except.ok "text") "/tmp"
        "bad key" "I am sad" []).errorShown = true ∧
      (getRecoveryPlan (fun _ => Except.error ())
          (fun _ => StageOutcome.ok) (fun _ _ _ => Except.ok "text") "/tmp"
          "bad key" "I am sad" []).invocations = [] := by
  have h := init_failure_blocks_invocation (fun _ => Except.error ())
    (fun _ => StageOutcome.ok) (fun _ _ _ => Except.ok "text") "/tmp"
    "bad key" "I am sad" [] (by decide) rfl
  exact ⟨h.2.1, h.2.2⟩

/-- C6: the attachment list produced by staging consists exactly of the
files whose staging succeeded, in input order; any file whose staging
raises is excluded, and the files after it are still processed. -/
theorem staging_failure_excludes_only_failed (tempdir : String)
    (stage : UploadedFile → StageOutcome) (files : List UploadedFile) :
    (process_images tempdir stage files).1 =
      (files.filter (fun f => stage f == StageOutcome.ok)).map
        (fun f => ⟨tmpPath tempdir f⟩) :=
  process_images_fst tempdir stage files

/-- C7: a submission with zero uploaded images performs no filesystem
writes, and every persona invocation it makes receives the empty
attachment list. -/
theorem no_uploads_no_temp_files (construct : String → Except Unit Unit)
    (stage : UploadedFile → StageOutcome)
    (run : PersonaId → String → List AgnoImage → Except Unit String)
    (tempdir api_key user_input : String) :
    (getRecoveryPlan construct stage run tempdir api_key user_input
        []).fsWrites = [] ∧
      (getRecoveryPlan construct stage run tempdir api_key user_input
          []).invocations.all (fun inv => inv.images == []) = true := by
  by_cases hu : user_input = ""
  · rw [hu, getRecoveryPlan_empty]
    exact ⟨rfl, rfl⟩
  · have hne : ¬(user_input = "" ∧ ([] : List UploadedFile) = []) :=
      fun hand => hu hand.1
    cases hc : construct api_key with
    | ok u =>
        rw [getRecoveryPlan_proceed construct stage run tempdir api_key
          user_input [] hne hc]
        refine ⟨rfl, ?_⟩
        simp only [List.all_eq_true, beq_iff_eq]
        exact runSequence_images run user_input
          (process_images tempdir stage []).1 personaOrder
    | error e =>
        rw [getRecoveryPlan_initFail construct stage run tempdir api_key
          user_input [] hne hc]
        exact ⟨rfl, rfl⟩

/-- C8: inside the four-persona sequence a raising invocation is not
caught: with the runs before position N succeeding and the run at
position N raising, exactly the personas up to and including N are
invoked, panels exist only for the personas before N, the exception
propagates, and the handler does not complete. -/
theorem plan_invocation_error_propagates
    (construct : String → Except Unit Unit)
    (stage : UploadedFile → StageOutcome)
    (run : PersonaId → String → List AgnoImage → Except Unit String)
    (tempdir api_key user_input : String) (files : List UploadedFile)
    (g : PersonaId → String) (ps₁ : List PersonaId) (p : PersonaId)
    (ps₂ : List PersonaId)
    (hsplit : personaOrder = ps₁ ++ p :: ps₂)
    (hu : user_input ≠ "")
    (hc : construct api_key = Except.ok ())
    (hok : ∀ q ∈ ps₁, run q (planMessage user_input q)
        (process_images tempdir stage files).1 = Except.ok (g q))
    (hfail : run p (planMessage user_input p)
        (process_images tempdir stage files).1 = Except.error ()) :
    (getRecoveryPlan construct stage run tempdir api_key user_input
        files).invocations =
        (ps₁ ++ [p]).map (fun q =>
          ⟨q, planMessage user_input q,
           (process_images tempdir stage files).1⟩) ∧
      (getRecoveryPlan construct stage run tempdir api_key user_input
          files).panels = ps₁.map (fun q => (q, g q)) ∧
      (getRecoveryPlan construct stage run tempdir api_key user_input
          files).raised = true ∧
      (getRecoveryPlan construct stage run tempdir api_key user_input
          files).completed = false := by
  rw [getRecoveryPlan_proceed construct stage run tempdir api_key
    user_input files (fun hand => hu hand.1) hc, hsplit,
    runSequence_fail_split run user_input
      (process_images tempdir stage files).1 g ps₁ p ps₂ hok hfail]
  exact ⟨rfl, rfl, rfl, rfl⟩

/-- Witness for C8 at a concrete input: the therapist run succeeds and the
closure run raises, so only the therapist panel is rendered, the closure
invocation is the last one made, and the handler does not complete. -/
theorem plan_invocation_error_propagates_witness :
    (getRecoveryPlan (fun _ => Except.ok ()) (fun _ => StageOutcome.ok)
          (fun q _ _ => if q = PersonaId.therapist then Except.ok "care"
            else Except.error ()) "/tmp" "key" "hurt"
          []).panels = [(PersonaId.therapist, "care")] ∧
      (getRecoveryPlan (fun _ => Except.ok ()) (fun _ => StageOutcome.ok)
          (fun q _ _ => if q = PersonaId.therapist then Except.ok "care"
            else Except.error ()) "/tmp" "key" "hurt"
          []).completed = false := by
  have h := plan_invocation_error_propagates (fun _ => Except.ok ())
    (fun _ => StageOutcome.ok)
    (fun q _ _ => if q = PersonaId.therapist then Except.ok "care"
      else Except.error ()) "/tmp" "key" "hurt" [] (fun _ => "care")
    [PersonaId.therapist] PersonaId.closure
    [PersonaId.planner, PersonaId.honest] rfl (by decide) rfl
    (by intro q hq; rw [List.mem_singleton] at hq; subst hq; rfl) rfl
  exact ⟨by rw [h.2.1]; rfl, h.2.2.2⟩

/-- C9: every staging write lands at tmpPath, the temporary directory
joined with the original filename of the file, and the attachments
produced record exactly that path; hence two files with identical names
map to the same staging path. -/
theorem staged_images_use_original_filename (tempdir : String)
    (stage : UploadedFile → StageOutcome) (files : List UploadedFile)
    (f g : UploadedFile) (hname : f.name = g.name) :
    (process_images tempdir stage files).2 =
        (files.filter
            (fun x => !(stage x == StageOutcome.failBeforeWrite))).map
          (fun x => (tmpPath tempdir x, x.data)) ∧
      tmpPath tempdir f = tmpPath tempdir g := by
  refine ⟨process_images_snd tempdir stage files, ?_⟩
  unfold tmpPath
  rw [hname]

/-- Witness for C9 at a concrete input: two uploads named a.png with
different contents are both written to the same path /tmp/a.png. -/
theorem staged_images_use_original_filename_witness :
    (process_images "/tmp" (fun _ => StageOutcome.ok)
        [⟨"a.png", "d1"⟩, ⟨"a.png", "d2"⟩]).2 =
        [("/tmp/a.png", "d1"), ("/tmp/a.png", "d2")] ∧
      tmpPath "/tmp" ⟨"a.png", "d1"⟩ = tmpPath "/tmp" ⟨"a.png", "d2"⟩ := by
  have h := staged_images_use_original_filename "/tmp"
    (fun _ => StageOutcome.ok) [⟨"a.png", "d1"⟩, ⟨"a.png", "d2"⟩]
    ⟨"a.png", "d1"⟩ ⟨"a.png", "d2"⟩ rfl
  exact ⟨by rw [h.1]; decide, h.2⟩

end BreakupRecovery
